import Mathlib

/-!
Verification of the Bouncer/Limen member-visibility engine.

This file gives a shallow embedding of the repository's access-control core:
the vocabulary enumerations (`AccessLevel`, `InheritanceType`), the
name-keyed `FriendshipManager` (src/access/friendship.py), the two
generations of the decision function `AccessChecker.can_access`
(src/limen/access/checker.py and src/bouncer/access/checker.py), the
descriptor enforcement path (src/descriptors/base.py) and the decorator
conflict check (src/bouncer/decorators/base.py).

Python classes are modelled with an explicit identity (`PyClass.id`)
distinct from their display name (`PyClass.name`, Python's `__name__`).
The host `issubclass` relation is modelled as reachability over a list of
direct base edges.  Host-runtime state read by the checker (function
attributes carrying friend markers, the thread-local static-method
context) is made explicit as fields of `FriendState`.

The `InheritanceAnalyzer` component (get_inheritance_type and
get_inherited_access_level) is not present under src/ — only its callers
are — so it is modelled from the spec, as noted on its definitions.
-/

namespace Bnc

/-- A Python class: identity-bearing `id` plus the display name `__name__`.
Two distinct classes may share a `name` but never an `id`. -/
structure PyClass where
  id : Nat
  name : String
deriving DecidableEq, Repr

/-- `AccessLevel` from the repository core: the closed variant
Public / Protected / Private. -/
inductive AccessLevel where
  | PUBLIC
  | PROTECTED
  | PRIVATE
deriving DecidableEq, Repr

/-- `InheritanceType` from the repository core: the per-edge inheritance
keyword, mirroring C++ public/protected/private inheritance. -/
inductive InheritanceType where
  | PUBLIC
  | PROTECTED
  | PRIVATE
deriving DecidableEq, Repr

/-- `CallerInfo` value object: optional caller class and method name, as
produced by the stack inspector. -/
structure CallerInfo where
  caller_class : Option PyClass
  caller_method : Option String
deriving DecidableEq, Repr

/-- Bounded reachability along direct-base edges, the model of Python's
`issubclass`: `d` is a subclass of `b` if `d = b` or a direct base of `d`
is a subclass of `b`.  `fuel` bounds the walk. -/
def issubclassFuel (edges : List (Nat × Nat)) : Nat → Nat → Nat → Bool
  | 0, _, _ => false
  | fuel + 1, d, b =>
    d = b || (edges.filterMap (fun e => if e.1 = d then some e.2 else none)).any
      (fun p => issubclassFuel edges fuel p b)

/-- The Python class hierarchy: the list of direct (derived, base) edges. -/
structure PyEnv where
  baseEdges : List (Nat × Nat)
deriving Repr

/-- Python's `issubclass`, computed over the recorded direct-base edges. -/
def PyEnv.issubclass (env : PyEnv) (d b : PyClass) : Bool :=
  issubclassFuel env.baseEdges (env.baseEdges.length + 1) d.id b.id

theorem issubclass_refl (env : PyEnv) (c : PyClass) : env.issubclass c c = true := by
  simp [PyEnv.issubclass, issubclassFuel]

/-- `FriendshipManager` state from src/access/friendship.py: a mapping
from target-class *names* to the set of friend-class *names*, modelled as
an association list preserving insertion order (Python dict/set). -/
structure FriendshipManager where
  relationships : List (String × List String)
deriving DecidableEq, Repr

/-- Insertion into a Python set of names: a no-op when already present. -/
def insertName (s : List String) (x : String) : List String :=
  if s.contains x then s else s ++ [x]

/-- `FriendshipManager.register_friend`: record that `friend_class` is a
friend of `target_class`, keyed by the classes' `__name__` strings. -/
def FriendshipManager.register_friend (m : FriendshipManager)
    (target_class friend_class : PyClass) : FriendshipManager :=
  if m.relationships.any (fun p => p.1 = target_class.name) then
    ⟨m.relationships.map (fun p =>
      if p.1 = target_class.name then (p.1, insertName p.2 friend_class.name) else p)⟩
  else
    ⟨m.relationships ++ [(target_class.name, [friend_class.name])]⟩

/-- `FriendshipManager.is_friend`: is `caller_class` a friend of
`target_class`?  Compared by `__name__`, exactly as the source does. -/
def FriendshipManager.is_friend (m : FriendshipManager)
    (target_class caller_class : PyClass) : Bool :=
  m.relationships.any
    (fun p => p.1 = target_class.name && p.2.contains caller_class.name)

/-- The full friendship-related state read by the Limen checker.  The
`manager` field is the `FriendshipManager` of src/access/friendship.py.
The remaining grant tables are modelled from the spec: the extended
FriendshipManager of src/limen/access/friendship.py (queried through
`is_friend_method`, `is_friend_function` and `is_staticmethod_friend`) is
missing from src/, so its grant kinds follow §4.1 of the spec
(FriendMethod, FriendFunction, FriendStaticContext), keyed by class
identity.  `attrFriends` makes explicit the host-runtime friend markers
the checker reads off the caller function (`_limen_friend_target`, an
`is`-comparison, hence keyed by identity), and `staticContext` is the
thread-local staticmethod context. -/
structure FriendState where
  manager : FriendshipManager
  methodFriends : List (Nat × Nat × String)
  functionFriends : List (Nat × String)
  staticFriends : List (Nat × String)
  attrFriends : List (Nat × String × Nat)
  staticContext : Option (PyClass × String)
deriving Repr

/-- Modelled from the spec: `is_friend_method(target, caller_type,
caller_method)` — pure query of the FriendMethod grants (§4.1). -/
def FriendState.is_friend_method (fs : FriendState)
    (target_class caller_class : PyClass) (caller_method : String) : Bool :=
  fs.methodFriends.any
    (fun g => g.1 = target_class.id && g.2.1 = caller_class.id && g.2.2 = caller_method)

/-- Modelled from the spec: `is_friend_function(target, function_name)` —
pure query of the FriendFunction grants (§4.1). -/
def FriendState.is_friend_function (fs : FriendState)
    (target_class : PyClass) (function_name : String) : Bool :=
  fs.functionFriends.any (fun g => g.1 = target_class.id && g.2 = function_name)

/-- Modelled from the spec: `is_staticmethod_friend(target, method)` —
pure query of the FriendStaticContext grants (§4.1). -/
def FriendState.is_staticmethod_friend (fs : FriendState)
    (target_class : PyClass) (method : String) : Bool :=
  fs.staticFriends.any (fun g => g.1 = target_class.id && g.2 = method)

/-- The friend markers the checker reads off the caller function: true
when `getattr(caller_class, caller_method)` carries `_limen_friend_target
is target_class`. -/
def FriendState.has_attr_marker (fs : FriendState)
    (caller_class : PyClass) (caller_method : String) (target_class : PyClass) : Bool :=
  fs.attrFriends.any
    (fun t => t.1 = caller_class.id && t.2.1 = caller_method && t.2.2 = target_class.id)

/-- Restrictiveness order Private > Protected > Public (§3). -/
def levelRank : AccessLevel → Nat
  | .PUBLIC => 0
  | .PROTECTED => 1
  | .PRIVATE => 2

/-- Restrictiveness of an inheritance edge kind, on the same scale. -/
def kindRank : InheritanceType → Nat
  | .PUBLIC => 0
  | .PROTECTED => 1
  | .PRIVATE => 2

/-- The access level an inheritance-edge kind caps a member at. -/
def kindAsLevel : InheritanceType → AccessLevel
  | .PUBLIC => .PUBLIC
  | .PROTECTED => .PROTECTED
  | .PRIVATE => .PRIVATE

/-- `max_restrictiveness` composition of §4.2: the more restrictive of a
level and an edge kind. -/
def maxRestrictiveness (l : AccessLevel) (k : InheritanceType) : AccessLevel :=
  if levelRank l ≥ kindRank k then l else kindAsLevel k

/-- Modelled from the spec: the Inheritance Registry state of the
`InheritanceAnalyzer`, which is missing from src/ (only its callers are).
`kindEdges` are the recorded (derived, base, kind) inheritance edges
(§4.2 record_edge) and `members` is the member-visibility table (owner,
name, declared level) populated at registration time (§6). -/
structure InheritanceAnalyzer where
  kindEdges : List (Nat × Nat × InheritanceType)
  members : List (Nat × String × AccessLevel)
deriving Repr

/-- The kind of the direct recorded edge from `d` to `b`, if any (§4.2
direct_kind). -/
def InheritanceAnalyzer.direct_kind (a : InheritanceAnalyzer) (d b : Nat) :
    Option InheritanceType :=
  (a.kindEdges.find? (fun e => e.1 = d && e.2.1 = b)).map (fun e => e.2.2)

/-- Fueled walk composing edge kinds from `d` up to `b`: a direct edge is
taken first, otherwise the first-declared edge from `d` whose base reaches
`b`, composing by max restrictiveness (§4.2, first-registered edge wins). -/
def composedKindFuel (a : InheritanceAnalyzer) :
    Nat → Nat → Nat → Option InheritanceType
  | 0, _, _ => none
  | fuel + 1, d, b =>
    match a.direct_kind d b with
    | some k => some k
    | none =>
      (a.kindEdges.filterMap (fun e => if e.1 = d then some (e.2.1, e.2.2) else none)).findSome?
        (fun p => (composedKindFuel a fuel p.1 b).map
          (fun k => if kindRank p.2 ≥ kindRank k then p.2 else k))

/-- Modelled from the spec: `get_inheritance_type(derived, base)` of the
missing `InheritanceAnalyzer` — the kind of the (transitively composed,
§4.2/§4.3 step 4) recorded inheritance connection from `derived` to
`base`; `none` when no recorded chain of edges connects them. -/
def InheritanceAnalyzer.get_inheritance_type (a : InheritanceAnalyzer)
    (derived base : PyClass) : Option InheritanceType :=
  composedKindFuel a (a.kindEdges.length + 1) derived.id base.id

/-- Fueled effective-visibility walk of §4.2: compose the declared level
with the kinds of the chain of recorded direct edges from `d` up to `b`,
taking at each node the first-declared edge that reaches `b`. -/
def effVisFuel (a : InheritanceAnalyzer) :
    Nat → Nat → Nat → AccessLevel → AccessLevel
  | 0, _, _, acc => acc
  | fuel + 1, d, b, acc =>
    if d = b then acc
    else
      match (a.kindEdges.filterMap (fun e => if e.1 = d then some (e.2.1, e.2.2) else none)).find?
          (fun p => p.1 = b || (composedKindFuel a fuel p.1 b).isSome) with
      | some p => effVisFuel a fuel p.1 b (maxRestrictiveness acc p.2)
      | none => acc

/-- Modelled from the spec: `get_inherited_access_level(actual_target,
member_name, declared_level, caller)` of the missing
`InheritanceAnalyzer`.  Per §4.2 this is `effective_visibility`: walk the
chain of recorded direct edges from the instance type up to the member's
declaring type, composing `max_restrictiveness` starting from the declared
level.  The declaring type is recovered from the registered member table;
the spec's effective_visibility does not consult the caller, so the last
argument (what the call sites pass in that position) is unused. -/
def InheritanceAnalyzer.get_inherited_access_level (a : InheritanceAnalyzer)
    (actual_target_class : PyClass) (method_name : String)
    (access_level : AccessLevel) (_caller_class : Option PyClass) : AccessLevel :=
  match a.members.find? (fun mem => mem.2.1 = method_name) with
  | none => access_level
  | some mem =>
    effVisFuel a (a.kindEdges.length + 1) actual_target_class.id mem.1 access_level

/-- `AccessChecker._check_friend_access` of src/limen/access/checker.py:
friend grants apply only to Private/Protected members; the caller
function's friend marker is consulted first, then (for a caller with no
class) the thread-local staticmethod context, then the friendship
registries. -/
def Limen.check_friend_access (fs : FriendState) (target_class : PyClass)
    (access_level : AccessLevel) (caller_info : CallerInfo) : Bool :=
  if access_level = AccessLevel.PRIVATE ∨ access_level = AccessLevel.PROTECTED then
    let marker :=
      match caller_info.caller_class, caller_info.caller_method with
      | some c, some m => fs.has_attr_marker c m target_class
      | _, _ => false
    if marker then true
    else
      let resolved : Option PyClass × Option String :=
        match caller_info.caller_class with
        | none =>
          match fs.staticContext with
          | some cm => (some cm.1, some cm.2)
          | none => (none, caller_info.caller_method)
        | some c => (some c, caller_info.caller_method)
      match resolved.2 with
      | none => false
      | some cm =>
        match resolved.1 with
        | none =>
          fs.is_friend_function target_class cm ||
            fs.is_staticmethod_friend target_class cm
        | some cc =>
          fs.is_friend_method target_class cc cm ||
            fs.manager.is_friend target_class cc
  else false

/-- `AccessChecker._check_private_access` of src/limen/access/checker.py:
same class allows; otherwise, with a caller method present, a constructor
caller related to the target in either direction allows, and any caller
whose class is a subclass of the target allows. -/
def Limen.check_private_access (env : PyEnv) (target_class : PyClass)
    (caller_class : Option PyClass) (caller_info : CallerInfo) : Bool :=
  match caller_class with
  | none => false
  | some cc =>
    if cc = target_class then true
    else
      match caller_info.caller_method with
      | none => false
      | some cm =>
        if cm = "__init__" ∧ (env.issubclass cc target_class = true ∨
            env.issubclass target_class cc = true) then true
        else if env.issubclass cc target_class = true then true
        else false

/-- `AccessChecker._check_protected_access` of src/limen/access/checker.py. -/
def Limen.check_protected_access (env : PyEnv) (ia : InheritanceAnalyzer)
    (target_class : PyClass) (caller_class : Option PyClass) : Bool :=
  match caller_class with
  | none => false
  | some cc =>
    if env.issubclass cc target_class = true ∨ env.issubclass target_class cc = true then
      if env.issubclass cc target_class = true then
        match ia.get_inheritance_type cc target_class with
        | some k => decide (k = InheritanceType.PUBLIC ∨ k = InheritanceType.PROTECTED)
        | none => false
      else true
    else false

/-- `AccessChecker._check_access_by_level` of src/limen/access/checker.py. -/
def Limen.check_access_by_level (env : PyEnv) (ia : InheritanceAnalyzer)
    (access_level : AccessLevel) (target_class : PyClass)
    (caller_class : Option PyClass) (caller_info : CallerInfo) : Bool :=
  match access_level with
  | .PUBLIC => true
  | .PRIVATE => Limen.check_private_access env target_class caller_class caller_info
  | .PROTECTED => Limen.check_protected_access env ia target_class caller_class

/-- The fallback step of the Limen `can_access`: compute the effective
access level via the analyzer and dispatch on it. -/
def Limen.fallback_step (env : PyEnv) (_fs : FriendState) (ia : InheritanceAnalyzer)
    (target_class : PyClass) (method_name : String) (access_level : AccessLevel)
    (caller_info : CallerInfo) (actual_target_class : PyClass) : Bool :=
  Limen.check_access_by_level env ia
    (ia.get_inherited_access_level actual_target_class method_name access_level
      caller_info.caller_class)
    target_class caller_info.caller_class caller_info

/-- `AccessChecker.can_access` of src/limen/access/checker.py, with
`caller_info` supplied by the caller (the stack-inspector default is the
external resolver).  Friend short-circuit first; a strict Private block
with the constructor-chain exception; the same-class shortcut; the
direct-inheritance branch; then the effective-visibility fallback. -/
def Limen.can_access (env : PyEnv) (fs : FriendState) (ia : InheritanceAnalyzer)
    (target_class : PyClass) (method_name : String) (access_level : AccessLevel)
    (caller_info : CallerInfo) (instance_class : Option PyClass) : Bool :=
  let caller_class := caller_info.caller_class
  if Limen.check_friend_access fs target_class access_level caller_info then true
  else
    let actual_target_class := instance_class.getD target_class
    if access_level = AccessLevel.PRIVATE then
      if caller_info.caller_method = some "__init__" ∧ instance_class.isSome ∧
          caller_class.isSome ∧
          instance_class.any (fun ic => env.issubclass ic target_class ||
            env.issubclass target_class ic) = true then true
      else if caller_class = some target_class then
        if instance_class = none ∨ instance_class = some target_class then true
        else false
      else false
    else if caller_class = some target_class then true
    else
      match caller_class with
      | some cc =>
        if env.issubclass cc target_class = true then
          match ia.get_inheritance_type cc target_class with
          | some InheritanceType.PRIVATE =>
            decide (access_level = AccessLevel.PROTECTED ∨ access_level = AccessLevel.PUBLIC)
          | some InheritanceType.PROTECTED =>
            decide (access_level = AccessLevel.PROTECTED ∨ access_level = AccessLevel.PUBLIC)
          | some InheritanceType.PUBLIC =>
            decide (access_level = AccessLevel.PUBLIC ∨ access_level = AccessLevel.PROTECTED)
          | none =>
            Limen.fallback_step env fs ia target_class method_name access_level
              caller_info actual_target_class
        else
          Limen.fallback_step env fs ia target_class method_name access_level
            caller_info actual_target_class
      | none =>
        Limen.fallback_step env fs ia target_class method_name access_level
          caller_info actual_target_class

/-- `AccessChecker._check_private_access` of src/bouncer/access/checker.py:
friends only (same-class was already handled at the top of can_access). -/
def Bouncer.check_private_access (fs : FriendState) (target_class : PyClass)
    (caller_class : Option PyClass) : Bool :=
  match caller_class with
  | none => false
  | some cc => fs.manager.is_friend target_class cc

/-- `AccessChecker._check_protected_access` of src/bouncer/access/checker.py. -/
def Bouncer.check_protected_access (env : PyEnv) (ia : InheritanceAnalyzer)
    (fs : FriendState) (target_class : PyClass) (caller_class : Option PyClass) : Bool :=
  match caller_class with
  | none => false
  | some cc =>
    if fs.manager.is_friend target_class cc then true
    else if env.issubclass cc target_class = true ∨
        env.issubclass target_class cc = true then
      if env.issubclass cc target_class = true then
        match ia.get_inheritance_type cc target_class with
        | some k => decide (k = InheritanceType.PUBLIC ∨ k = InheritanceType.PROTECTED)
        | none => false
      else true
    else false

/-- `AccessChecker._check_access_by_level` of src/bouncer/access/checker.py. -/
def Bouncer.check_access_by_level (env : PyEnv) (ia : InheritanceAnalyzer)
    (fs : FriendState) (access_level : AccessLevel) (target_class : PyClass)
    (caller_class : Option PyClass) : Bool :=
  match access_level with
  | .PUBLIC => true
  | .PRIVATE => Bouncer.check_private_access fs target_class caller_class
  | .PROTECTED => Bouncer.check_protected_access env ia fs target_class caller_class

/-- The fallback step of the Bouncer `can_access`. -/
def Bouncer.fallback_step (env : PyEnv) (fs : FriendState) (ia : InheritanceAnalyzer)
    (target_class : PyClass) (method_name : String) (access_level : AccessLevel)
    (caller_class : Option PyClass) (actual_target_class : PyClass) : Bool :=
  Bouncer.check_access_by_level env ia fs
    (ia.get_inherited_access_level actual_target_class method_name access_level caller_class)
    target_class caller_class

/-- `AccessChecker.can_access` of src/bouncer/access/checker.py: the
earlier generation — same-class shortcut, direct-inheritance branch, then
the effective-visibility fallback (friends are consulted only inside the
fallback's private/protected strategies). -/
def Bouncer.can_access (env : PyEnv) (fs : FriendState) (ia : InheritanceAnalyzer)
    (target_class : PyClass) (method_name : String) (access_level : AccessLevel)
    (caller_info : CallerInfo) (instance_class : Option PyClass) : Bool :=
  let caller_class := caller_info.caller_class
  let actual_target_class := instance_class.getD target_class
  if caller_class = some target_class then true
  else
    match caller_class with
    | some cc =>
      if env.issubclass cc target_class = true then
        match ia.get_inheritance_type cc target_class with
        | some InheritanceType.PRIVATE =>
          decide (access_level = AccessLevel.PROTECTED ∨ access_level = AccessLevel.PUBLIC)
        | some InheritanceType.PROTECTED =>
          decide (access_level = AccessLevel.PROTECTED ∨ access_level = AccessLevel.PUBLIC)
        | some InheritanceType.PUBLIC =>
          decide (access_level = AccessLevel.PUBLIC ∨ access_level = AccessLevel.PROTECTED)
        | none =>
          Bouncer.fallback_step env fs ia target_class method_name access_level
            caller_class actual_target_class
      else
        Bouncer.fallback_step env fs ia target_class method_name access_level
          caller_class actual_target_class
    | none =>
      Bouncer.fallback_step env fs ia target_class method_name access_level
        caller_class actual_target_class

/-- `AccessControlledDescriptor._check_access` of src/descriptors/base.py,
with enforcement enabled and the stack inspector's answer passed in as
`resolved`: when the inspector found no caller class and a receiver object
is present, the caller is replaced by
`CallerInfo(obj.__class__, "<same_class_access>")`; the checker is then
consulted with the receiver's class as the instance class.  `false` means
the method raises `PermissionError`.  The access-control system module
that owns the dispatched-to checker is not under src/; the dispatch
target here is the AccessChecker.can_access of the limen generation. -/
def Descriptor.check_access (env : PyEnv) (fs : FriendState) (ia : InheritanceAnalyzer)
    (owner : PyClass) (name : String) (access_level : AccessLevel)
    (resolved : CallerInfo) (obj_class : Option PyClass) : Bool :=
  let caller_info :=
    if resolved.caller_class = none ∧ obj_class.isSome then
      CallerInfo.mk obj_class (some "<same_class_access>")
    else resolved
  Limen.can_access env fs ia owner name access_level caller_info obj_class

/-- The decoration state of one member as read by
`_check_access_level_conflict` of src/bouncer/decorators/base.py: the
access level the member already carries (if any), the
`_created_by_friend_decorator` flag, and whether the carrying object is an
`AccessControlledDescriptor` of this system (rather than a plain function
with attributes). -/
structure MemberDecoration where
  access_level : Option AccessLevel
  created_by_friend_decorator : Bool
  is_descriptor : Bool
deriving DecidableEq, Repr

/-- `_check_access_level_conflict` of src/bouncer/decorators/base.py:
`true` when a `ValueError` is raised — an access level is already present
(duplicate and conflicting levels alike) and it is not the
friend-decorator-preassigned Public special case. -/
def check_access_level_conflict (st : MemberDecoration)
    (_new_level : AccessLevel) : Bool :=
  match st.access_level with
  | none => false
  | some existing =>
    if st.created_by_friend_decorator ∧ existing = AccessLevel.PUBLIC then false
    else true

/-- `_apply_to_function` of src/bouncer/decorators/base.py as a state
transition (`none` = `ValueError`): after the conflict check, an existing
descriptor of this system has its level updated in place (its other state
untouched), while any other object is wrapped in a fresh
`MethodDescriptor` by `DescriptorFactory.create_method_descriptor` — the
new descriptor carries only the new level, and a plain function's
attributes (the friend flag among them) are not forwarded by it. -/
def apply_to_function (st : MemberDecoration) (new_level : AccessLevel) :
    Option MemberDecoration :=
  if check_access_level_conflict st new_level then none
  else if st.is_descriptor then
    some { st with access_level := some new_level }
  else
    some { access_level := some new_level
           created_by_friend_decorator := false
           is_descriptor := true }

/-- Modelled from the spec: the member state produced by a friend-method
declaration, which pre-assigns Public implicitly with the friend flag set
(§3); the friend-method decorator itself is missing from src/, and per the
factory's handling of friend-marked raw functions
(src/bouncer/descriptors/factory.py) it yields a plain attributed
function, not a descriptor of this system. -/
def friendPreassigned : MemberDecoration :=
  { access_level := some AccessLevel.PUBLIC
    created_by_friend_decorator := true
    is_descriptor := false }

/-! ### Helper lemmas -/

/-- Same-type access always allowed by the Limen checker when the
instance is of exactly the declaring type. -/
theorem limen_same_type_allows (env : PyEnv) (fs : FriendState)
    (ia : InheritanceAnalyzer) (T : PyClass) (m : String) (lvl : AccessLevel)
    (cm : Option String) :
    Limen.can_access env fs ia T m lvl ⟨some T, cm⟩ (some T) = true := by
  unfold Limen.can_access
  split_ifs <;> simp_all

/-- The Limen friend check never fires for Public members. -/
theorem check_friend_access_public (fs : FriendState) (T : PyClass)
    (ci : CallerInfo) :
    Limen.check_friend_access fs T AccessLevel.PUBLIC ci = false := by
  unfold Limen.check_friend_access
  simp

/-- A positive friend check short-circuits the whole decision. -/
theorem friend_short_circuit (env : PyEnv) (fs : FriendState)
    (ia : InheritanceAnalyzer) (T : PyClass) (m : String) (lvl : AccessLevel)
    (ci : CallerInfo) (inst : Option PyClass) :
    Limen.check_friend_access fs T lvl ci = true →
    Limen.can_access env fs ia T m lvl ci inst = true := by
  intro h
  unfold Limen.can_access
  simp [h]

/-- A registered friend-class grant makes the friend check fire for any
Private/Protected member when the caller is the friend class with any
method. -/
theorem check_friend_access_of_is_friend (fs : FriendState) (T F : PyClass)
    (mtd : String) (lvl : AccessLevel)
    (hl : lvl = AccessLevel.PRIVATE ∨ lvl = AccessLevel.PROTECTED)
    (hf : fs.manager.is_friend T F = true) :
    Limen.check_friend_access fs T lvl ⟨some F, some mtd⟩ = true := by
  unfold Limen.check_friend_access
  rw [if_pos hl]
  by_cases hm : fs.has_attr_marker F mtd T = true
  · simp [hm]
  · simp [hm, hf]

/-- Mapping a function that fixes every element of a list is the
identity. -/
theorem list_map_eq_self {α : Type} (l : List α) (f : α → α)
    (h : ∀ a ∈ l, f a = a) : l.map f = l := by
  induction l with
  | nil => rfl
  | cons a t ih =>
    simp only [List.map_cons, h a (by simp)]
    rw [ih (fun b hb => h b (by simp [hb]))]

/-- `insertName` puts its argument in the set. -/
theorem contains_insertName (s : List String) (x : String) :
    (insertName s x).contains x = true := by
  unfold insertName
  split
  · assumption
  · simp

/-- Membership form of `contains_insertName`. -/
theorem mem_insertName (s : List String) (x : String) : x ∈ insertName s x := by
  unfold insertName
  split
  case isTrue h => simpa using h
  case isFalse h => simp

/-- `insertName` is a no-op on a set already containing the argument. -/
theorem insertName_of_contains (s : List String) (x : String)
    (h : s.contains x = true) : insertName s x = s := by
  unfold insertName
  rw [if_pos h]

/-- After `register_friend target friend`, some relationship entry is
keyed by the target's name. -/
theorem register_friend_has_key (m : FriendshipManager) (T F : PyClass) :
    (m.register_friend T F).relationships.any
      (fun p => p.1 = T.name) = true := by
  unfold FriendshipManager.register_friend
  split
  case isTrue h =>
    simp only [List.any_map]
    rw [List.any_eq_true] at h ⊢
    obtain ⟨p, hp, hpt⟩ := h
    refine ⟨p, hp, ?_⟩
    simp only [Function.comp]
    simp only [decide_eq_true_eq] at hpt
    simp [hpt]
  case isFalse h =>
    simp

/-- `register_friend` records the friendship: `is_friend` holds for the
same target and friend classes afterwards. -/
theorem is_friend_after_register (m : FriendshipManager) (T F : PyClass) :
    (m.register_friend T F).is_friend T F = true := by
  unfold FriendshipManager.register_friend FriendshipManager.is_friend
  split
  case isTrue h =>
    simp only [List.any_map]
    rw [List.any_eq_true] at h ⊢
    obtain ⟨p, hp, hpt⟩ := h
    refine ⟨p, hp, ?_⟩
    simp only [decide_eq_true_eq] at hpt
    simp [Function.comp, hpt, mem_insertName]
  case isFalse h =>
    rw [List.any_eq_true]
    exact ⟨(T.name, [F.name]), by simp, by simp⟩

/-- A registry whose entries for the target already contain the friend is
unchanged by `register_friend`. -/
theorem register_friend_saturated (m : FriendshipManager) (T F : PyClass)
    (hkey : m.relationships.any (fun p => p.1 = T.name) = true)
    (hsat : ∀ p ∈ m.relationships, p.1 = T.name → p.2.contains F.name = true) :
    m.register_friend T F = m := by
  unfold FriendshipManager.register_friend
  rw [if_pos hkey]
  have hmap : m.relationships.map (fun p =>
      if p.1 = T.name then (p.1, insertName p.2 F.name) else p) = m.relationships := by
    apply list_map_eq_self
    intro p hp
    by_cases hpt : p.1 = T.name
    · rw [if_pos hpt, insertName_of_contains p.2 F.name (hsat p hp hpt)]
    · rw [if_neg hpt]
  rw [hmap]

/-- Every entry for the target in a freshly registered registry contains
the friend. -/
theorem register_friend_entry_contains (m : FriendshipManager) (T F : PyClass) :
    ∀ p ∈ (m.register_friend T F).relationships,
      p.1 = T.name → p.2.contains F.name = true := by
  intro p hp hpt
  unfold FriendshipManager.register_friend at hp
  split at hp
  case isTrue h =>
    obtain ⟨q, hq, hfq⟩ := List.mem_map.mp hp
    by_cases hqt : q.1 = T.name
    · rw [if_pos hqt] at hfq
      rw [← hfq]
      exact contains_insertName q.2 F.name
    · rw [if_neg hqt] at hfq
      rw [← hfq] at hpt
      exact absurd hpt hqt
  case isFalse h =>
    rcases List.mem_append.mp hp with hold | hnew
    · exfalso
      apply absurd h
      simp only [not_not]
      rw [List.any_eq_true]
      exact ⟨p, hold, by simp [hpt]⟩
    · have hpeq : p = (T.name, [F.name]) := by simpa using hnew
      rw [hpeq]
      simp

/-- Registering the same friendship twice leaves the registry state
unchanged. -/
theorem register_friend_idem (m : FriendshipManager) (T F : PyClass) :
    (m.register_friend T F).register_friend T F = m.register_friend T F :=
  register_friend_saturated (m.register_friend T F) T F
    (register_friend_has_key m T F)
    (register_friend_entry_contains m T F)

/-- The Limen friend check is negative when the caller has a class and no
grant of any kind links the target to that caller. -/
theorem check_friend_access_none (fs : FriendState) (T U : PyClass)
    (cm : Option String) (lvl : AccessLevel)
    (h1 : fs.manager.is_friend T U = false)
    (h2 : ∀ s, fs.is_friend_method T U s = false)
    (h3 : ∀ s, fs.has_attr_marker U s T = false) :
    Limen.check_friend_access fs T lvl ⟨some U, cm⟩ = false := by
  unfold Limen.check_friend_access
  split
  · cases cm with
    | none => simp [h1]
    | some s => simp [h1, h2 s, h3 s]
  · rfl

/-! ### Concrete states used by witnesses and counterexamples -/

/-- An empty friendship state: no grants of any kind, no markers, no
thread-local static context. -/
def fsEmpty : FriendState := ⟨⟨[]⟩, [], [], [], [], none⟩

/-- An empty inheritance registry: no recorded kind edges, no members. -/
def iaEmpty : InheritanceAnalyzer := ⟨[], []⟩

/-! ### C1 -/

/-- C1, counterexample: with no friend grant at all, declaring type
`T = ⟨0, "T"⟩`, caller type `U = ⟨1, "U"⟩ ≠ T`, caller method
`"__init__"` and instance type `T`, the Limen `can_access` returns true —
the constructor-chain branch fires because `issubclass(T, T)` holds — so
the claim's "for any caller_method … returns false" is refuted. -/
theorem c1_counterexample :
    Limen.can_access ⟨[]⟩ fsEmpty iaEmpty ⟨0, "T"⟩ "m" AccessLevel.PRIVATE
      ⟨some ⟨1, "U"⟩, some "__init__"⟩ (some ⟨0, "T"⟩) = true := by rfl

/-- C1, amended: for every declaring type T, member m declared Private in
T, and caller type U ≠ T with no friend grant of any kind for (T, U) or
(T, U, any method), and any caller method **other than the constructor
`__init__`**, `can_access(T, m, Private, caller_type = U, instance_type =
T)` returns false. -/
theorem c1_private_cross_type_denied :
    ∀ (env : PyEnv) (fs : FriendState) (ia : InheritanceAnalyzer)
      (T U : PyClass) (m : String) (cm : Option String),
      U ≠ T →
      cm ≠ some "__init__" →
      fs.manager.is_friend T U = false →
      (∀ s, fs.is_friend_method T U s = false) →
      (∀ s, fs.has_attr_marker U s T = false) →
      Limen.can_access env fs ia T m AccessLevel.PRIVATE ⟨some U, cm⟩
        (some T) = false := by
  intro env fs ia T U m cm hUT hcm h1 h2 h3
  have hfc := check_friend_access_none fs T U cm AccessLevel.PRIVATE h1 h2 h3
  unfold Limen.can_access
  simp [hfc, hcm, hUT]

/-- C1, witness for the amended theorem at a concrete input. -/
theorem c1_private_cross_type_denied_witness :
    Limen.can_access ⟨[]⟩ fsEmpty iaEmpty ⟨0, "T"⟩ "m" AccessLevel.PRIVATE
      ⟨some ⟨1, "U"⟩, some "helper"⟩ (some ⟨0, "T"⟩) = false :=
  c1_private_cross_type_denied ⟨[]⟩ fsEmpty iaEmpty ⟨0, "T"⟩ ⟨1, "U"⟩ "m"
    (some "helper") (by decide) (by decide) rfl (fun _ => rfl) (fun _ => rfl)

/-! ### C2 -/

/-- C2: for every declaring type T, member name m, declared level L and
any caller method, `can_access(T, m, L, caller_type = T, instance_type =
T)` returns true. -/
theorem c2_same_type_access_allowed :
    ∀ (env : PyEnv) (fs : FriendState) (ia : InheritanceAnalyzer)
      (T : PyClass) (m : String) (lvl : AccessLevel) (cm : Option String),
      Limen.can_access env fs ia T m lvl ⟨some T, cm⟩ (some T) = true :=
  fun env fs ia T m lvl cm => limen_same_type_allows env fs ia T m lvl cm

/-! ### C3 -/

/-- C3: a registered friend-type grant for (T, F) makes every Private and
Protected member of T accessible from any method of F regardless of the
class hierarchy (the environment is arbitrary); the friend check never
fires for Public members and short-circuits the whole decision (it is
evaluated before all structural rules); and a repeated `register_friend`
leaves the registry state unchanged. -/
theorem c3_friend_type_grant :
    ∀ (env : PyEnv) (fs : FriendState) (ia : InheritanceAnalyzer)
      (T F : PyClass) (m mtd : String) (lvl : AccessLevel) (ci : CallerInfo)
      (inst : Option PyClass),
      ((lvl = AccessLevel.PRIVATE ∨ lvl = AccessLevel.PROTECTED) →
        Limen.can_access env { fs with manager := fs.manager.register_friend T F }
          ia T m lvl ⟨some F, some mtd⟩ inst = true)
      ∧ Limen.check_friend_access fs T AccessLevel.PUBLIC ci = false
      ∧ (Limen.check_friend_access fs T lvl ci = true →
          Limen.can_access env fs ia T m lvl ci inst = true)
      ∧ (fs.manager.register_friend T F).register_friend T F =
          fs.manager.register_friend T F := by
  intro env fs ia T F m mtd lvl ci inst
  refine ⟨?_, check_friend_access_public fs T ci,
    friend_short_circuit env fs ia T m lvl ci inst,
    register_friend_idem fs.manager T F⟩
  intro hl
  apply friend_short_circuit
  exact check_friend_access_of_is_friend _ T F mtd lvl hl
    (is_friend_after_register fs.manager T F)

/-- C3, witness: a concrete Private access by a registered friend class
succeeds. -/
theorem c3_friend_type_grant_witness :
    Limen.can_access ⟨[]⟩
      ⟨FriendshipManager.register_friend ⟨[]⟩ ⟨0, "T"⟩ ⟨1, "F"⟩, [], [], [], [], none⟩
      iaEmpty ⟨0, "T"⟩ "m" AccessLevel.PRIVATE ⟨some ⟨1, "F"⟩, some "go"⟩ none = true :=
  (c3_friend_type_grant ⟨[]⟩ ⟨⟨[]⟩, [], [], [], [], none⟩ iaEmpty ⟨0, "T"⟩
    ⟨1, "F"⟩ "m" "go" AccessLevel.PRIVATE ⟨none, none⟩ none).1 (Or.inl rfl)

/-! ### C4 -/

/-- C4: for a Private member, a caller whose method is the constructor
`__init__` is allowed whenever the instance type and the declaring type
are related by `issubclass` in either direction — for any caller type. -/
theorem c4_constructor_chain :
    ∀ (env : PyEnv) (fs : FriendState) (ia : InheritanceAnalyzer)
      (T U inst : PyClass) (m : String),
      (env.issubclass inst T = true ∨ env.issubclass T inst = true) →
      Limen.can_access env fs ia T m AccessLevel.PRIVATE
        ⟨some U, some "__init__"⟩ (some inst) = true := by
  intro env fs ia T U inst m hrel
  have hany : (some inst).any
      (fun ic => env.issubclass ic T || env.issubclass T ic) = true := by
    rcases hrel with h | h <;> simp [h]
  unfold Limen.can_access
  split
  · rfl
  · simp [hany]

/-- C4, witness: the constructor-chain scenario — `B` derives from `A`;
`A`'s private call from `A.__init__` and `B`'s private call from
`B.__init__` both succeed on an instance of runtime type `B`. -/
theorem c4_constructor_chain_witness :
    (⟨[(1, 0)]⟩ : PyEnv).issubclass ⟨1, "B"⟩ ⟨0, "A"⟩ = true
    ∧ Limen.can_access ⟨[(1, 0)]⟩ fsEmpty iaEmpty ⟨0, "A"⟩ "__a_private"
        AccessLevel.PRIVATE ⟨some ⟨0, "A"⟩, some "__init__"⟩ (some ⟨1, "B"⟩) = true
    ∧ Limen.can_access ⟨[(1, 0)]⟩ fsEmpty iaEmpty ⟨1, "B"⟩ "__b_private"
        AccessLevel.PRIVATE ⟨some ⟨1, "B"⟩, some "__init__"⟩ (some ⟨1, "B"⟩) = true :=
  ⟨by decide,
   c4_constructor_chain ⟨[(1, 0)]⟩ fsEmpty iaEmpty ⟨0, "A"⟩ ⟨0, "A"⟩ ⟨1, "B"⟩
     "__a_private" (Or.inl (by decide)),
   c4_constructor_chain ⟨[(1, 0)]⟩ fsEmpty iaEmpty ⟨1, "B"⟩ ⟨1, "B"⟩ ⟨1, "B"⟩
     "__b_private" (Or.inl (by decide))⟩

/-! ### C5 -/

/-- C5: for a Private member of T, with no applicable friend grant and a
non-constructor caller method, a caller of type T is allowed when the
instance type is unset or exactly T, and denied when the instance type is
a proper subtype of T. -/
theorem c5_private_strict_instance_rule :
    ∀ (env : PyEnv) (fs : FriendState) (ia : InheritanceAnalyzer)
      (T : PyClass) (m : String) (cm : Option String),
      cm ≠ some "__init__" →
      fs.manager.is_friend T T = false →
      (∀ s, fs.is_friend_method T T s = false) →
      (∀ s, fs.has_attr_marker T s T = false) →
      Limen.can_access env fs ia T m AccessLevel.PRIVATE ⟨some T, cm⟩ none = true
      ∧ Limen.can_access env fs ia T m AccessLevel.PRIVATE ⟨some T, cm⟩ (some T) = true
      ∧ (∀ D : PyClass, D ≠ T → env.issubclass D T = true →
          Limen.can_access env fs ia T m AccessLevel.PRIVATE ⟨some T, cm⟩
            (some D) = false) := by
  intro env fs ia T m cm hcm h1 h2 h3
  have hfc := check_friend_access_none fs T T cm AccessLevel.PRIVATE h1 h2 h3
  refine ⟨?_, limen_same_type_allows env fs ia T m AccessLevel.PRIVATE cm, ?_⟩
  · unfold Limen.can_access
    simp [hfc]
  · intro D hD _hsub
    unfold Limen.can_access
    simp [hfc, hcm, hD]

/-- C5, witness: concrete T with subclass D — allowed with no instance
and with instance T, denied with instance D. -/
theorem c5_private_strict_instance_rule_witness :
    Limen.can_access ⟨[(1, 0)]⟩ fsEmpty iaEmpty ⟨0, "T"⟩ "m" AccessLevel.PRIVATE
      ⟨some ⟨0, "T"⟩, some "helper"⟩ none = true
    ∧ Limen.can_access ⟨[(1, 0)]⟩ fsEmpty iaEmpty ⟨0, "T"⟩ "m" AccessLevel.PRIVATE
      ⟨some ⟨0, "T"⟩, some "helper"⟩ (some ⟨0, "T"⟩) = true
    ∧ Limen.can_access ⟨[(1, 0)]⟩ fsEmpty iaEmpty ⟨0, "T"⟩ "m" AccessLevel.PRIVATE
      ⟨some ⟨0, "T"⟩, some "helper"⟩ (some ⟨1, "D"⟩) = false := by
  have h := c5_private_strict_instance_rule ⟨[(1, 0)]⟩ fsEmpty iaEmpty ⟨0, "T"⟩
    "m" (some "helper") (by decide) rfl (fun _ => rfl) (fun _ => rfl)
  exact ⟨h.1, h.2.1, h.2.2 ⟨1, "D"⟩ (by decide) (by decide)⟩

/-! ### C6 -/

/-- The class hierarchy of the C6 scenario: C and D are direct Python
subclasses of T. -/
def envC6 : PyEnv := ⟨[(1, 0), (2, 0)]⟩

/-- The inheritance registry of the C6 scenario: D privately inherits
from T; T declares member "m" Protected.  No kind edge is recorded for C. -/
def iaC6 : InheritanceAnalyzer :=
  ⟨[(2, 0, InheritanceType.PRIVATE)], [(0, "m", AccessLevel.PROTECTED)]⟩

/-- C6, counterexample: in the concrete scenario, the caller C is not a
friend, the declared level is Protected (not Private), C is not the
declaring type T, C is a Python subclass of T but with no recorded
inheritance kind — so the fallback step is reached — and the computed
effective visibility of "m" is Private; yet `can_access` returns true:
the fallback private path does allow for some input, refuting
deny-by-construction. -/
theorem c6_counterexample :
    Limen.check_friend_access fsEmpty ⟨0, "T"⟩ AccessLevel.PROTECTED
      ⟨some ⟨1, "C"⟩, some "foo"⟩ = false
    ∧ envC6.issubclass ⟨1, "C"⟩ ⟨0, "T"⟩ = true
    ∧ iaC6.get_inheritance_type ⟨1, "C"⟩ ⟨0, "T"⟩ = none
    ∧ iaC6.get_inherited_access_level ⟨2, "D"⟩ "m" AccessLevel.PROTECTED
        (some ⟨1, "C"⟩) = AccessLevel.PRIVATE
    ∧ Limen.can_access envC6 fsEmpty iaC6 ⟨0, "T"⟩ "m" AccessLevel.PROTECTED
        ⟨some ⟨1, "C"⟩, some "foo"⟩ (some ⟨2, "D"⟩) = true := by
  refine ⟨rfl, rfl, rfl, rfl, rfl⟩

/-- Characterization of the Limen fallback private strategy for a caller
with a class. -/
theorem limen_check_private_iff (env : PyEnv) (T cc : PyClass)
    (cm : Option String) :
    Limen.check_private_access env T (some cc) ⟨some cc, cm⟩ = true ↔
      (cc = T ∨ ∃ s, cm = some s ∧ (env.issubclass cc T = true ∨
        (s = "__init__" ∧ env.issubclass T cc = true))) := by
  unfold Limen.check_private_access
  by_cases hct : cc = T
  · simp [hct]
  · simp only [if_neg hct]
    cases cm with
    | none => simp [hct]
    | some s =>
      simp only [hct, false_or]
      split_ifs with h1 h2 <;> simp_all

/-- C6, amended: when `can_access` reaches the fallback step (the caller
has a class, is not a friend, the declared level is not Private, the
caller is not the declaring type, and the direct-inheritance branch did
not decide) and the computed effective visibility is Private, the verdict
is deny **unless** the caller's class is a Python subclass of the
declaring type, or the caller's method is the constructor `__init__` and
the declaring type is a Python subclass of the caller's class — in those
cases the fallback private path returns allow. -/
theorem c6_fallback_private_rule :
    ∀ (env : PyEnv) (fs : FriendState) (ia : InheritanceAnalyzer)
      (T cc : PyClass) (m : String) (lvl : AccessLevel) (cm : Option String)
      (inst : Option PyClass),
      Limen.check_friend_access fs T lvl ⟨some cc, cm⟩ = false →
      lvl ≠ AccessLevel.PRIVATE →
      cc ≠ T →
      (env.issubclass cc T = false ∨ ia.get_inheritance_type cc T = none) →
      ia.get_inherited_access_level (inst.getD T) m lvl (some cc) =
        AccessLevel.PRIVATE →
      (Limen.can_access env fs ia T m lvl ⟨some cc, cm⟩ inst = true ↔
        ∃ s, cm = some s ∧ (env.issubclass cc T = true ∨
          (s = "__init__" ∧ env.issubclass T cc = true))) := by
  intro env fs ia T cc m lvl cm inst hfc hlvl hcc hbranch heff
  have hfall : Limen.can_access env fs ia T m lvl ⟨some cc, cm⟩ inst =
      Limen.check_private_access env T (some cc) ⟨some cc, cm⟩ := by
    unfold Limen.can_access
    simp only [hfc, Bool.false_eq_true, if_false, if_neg hlvl]
    have hcs : ¬ ((some cc : Option PyClass) = some T) := by simp [hcc]
    simp only [if_neg hcs]
    rcases hbranch with hsub | hkind
    · simp [hsub, Limen.fallback_step, heff, Limen.check_access_by_level]
    · by_cases hsub : env.issubclass cc T = true
      · simp [hsub, hkind, Limen.fallback_step, heff, Limen.check_access_by_level]
      · simp [hsub, Limen.fallback_step, heff, Limen.check_access_by_level]
  rw [hfall, limen_check_private_iff]
  simp [hcc]

/-- C6, witness for the amended theorem: the concrete scenario's allow
verdict is produced by the subclass carve-out. -/
theorem c6_fallback_private_rule_witness :
    Limen.can_access envC6 fsEmpty iaC6 ⟨0, "T"⟩ "m" AccessLevel.PROTECTED
      ⟨some ⟨1, "C"⟩, some "foo"⟩ (some ⟨2, "D"⟩) = true :=
  (c6_fallback_private_rule envC6 fsEmpty iaC6 ⟨0, "T"⟩ ⟨1, "C"⟩ "m"
    AccessLevel.PROTECTED (some "foo") (some ⟨2, "D"⟩) rfl (by decide)
    (by decide) (Or.inr rfl) rfl).mpr ⟨"foo", rfl, Or.inl (by decide)⟩

/-! ### C7 -/

/-- C7: the source keys friendship by `__name__`, not identity — after
registering `⟨1, "Dup"⟩` as a friend of the target, the *distinct* class
`⟨2, "Dup"⟩` sharing the same display name is reported as a friend too,
where the claim requires `is_friend` to return false. -/
theorem c7_name_collision_grants_friendship :
    (FriendshipManager.register_friend ⟨[]⟩ ⟨0, "Target"⟩ ⟨1, "Dup"⟩).is_friend
      ⟨0, "Target"⟩ ⟨2, "Dup"⟩ = true := by rfl

/-! ### C8 -/

/-- C8, counterexample: resolver returns `CallerInfo(None, None)`, the
receiver is of type Derived — a Python subclass of Base — and the member
is a Private member of Base: the enforcement path denies (raising
`PermissionError`), refuting "the access is allowed". -/
theorem c8_counterexample :
    Descriptor.check_access ⟨[(1, 0)]⟩ fsEmpty iaEmpty ⟨0, "Base"⟩ "secret"
      AccessLevel.PRIVATE ⟨none, none⟩ (some ⟨1, "Derived"⟩) = false := by rfl

/-- C8, amended: when the resolver returns no caller and an object
receiver is available, the enforcement path degrades by treating the call
as coming from the *receiver's runtime type* (caller class = receiver's
class, method `"<same_class_access>"`) and re-checks; the access is
allowed whenever the receiver's type equals the member's declaring type,
but the substituted identity may still be denied otherwise. -/
theorem c8_unresolved_caller_degradation :
    ∀ (env : PyEnv) (fs : FriendState) (ia : InheritanceAnalyzer)
      (owner : PyClass) (name : String) (lvl : AccessLevel) (oc : PyClass),
      Descriptor.check_access env fs ia owner name lvl ⟨none, none⟩ (some oc) =
        Limen.can_access env fs ia owner name lvl
          ⟨some oc, some "<same_class_access>"⟩ (some oc)
      ∧ (oc = owner →
        Descriptor.check_access env fs ia owner name lvl ⟨none, none⟩
          (some oc) = true) := by
  intro env fs ia owner name lvl oc
  constructor
  · rfl
  · intro h
    subst h
    exact limen_same_type_allows env fs ia oc name lvl (some "<same_class_access>")

/-- C8, witness for the amended theorem: with the receiver of exactly the
declaring type, the degraded check allows. -/
theorem c8_unresolved_caller_degradation_witness :
    Descriptor.check_access ⟨[]⟩ fsEmpty iaEmpty ⟨0, "T"⟩ "m"
      AccessLevel.PRIVATE ⟨none, none⟩ (some ⟨0, "T"⟩) = true :=
  (c8_unresolved_caller_degradation ⟨[]⟩ fsEmpty iaEmpty ⟨0, "T"⟩ "m"
    AccessLevel.PRIVATE ⟨0, "T"⟩).2 rfl

/-! ### C9 -/

/-- C9: a second explicit access-level decorator on a member that already
carries an explicitly applied level raises (both a duplicate of the same
level and a conflicting one — the check errors regardless of the new
level); the only exception is the friend-decorator-preassigned Public
state, which exactly one later explicit declaration may confirm or
override: the overriding declaration wraps the member in a fresh
descriptor without the friend flag, so any further explicit declaration
raises. -/
theorem c9_conflict_check_rules :
    ∀ (L1 L2 L3 : AccessLevel) (isDesc : Bool),
      apply_to_function ⟨some L1, false, isDesc⟩ L2 = none
      ∧ (L1 ≠ AccessLevel.PUBLIC →
          apply_to_function ⟨some L1, true, isDesc⟩ L2 = none)
      ∧ apply_to_function friendPreassigned L2 = some ⟨some L2, false, true⟩
      ∧ apply_to_function ⟨some L2, false, true⟩ L3 = none := by
  intro L1 L2 L3 isDesc
  refine ⟨?_, ?_, ?_, ?_⟩
  · simp [apply_to_function, check_access_level_conflict]
  · intro h
    simp [apply_to_function, check_access_level_conflict, h]
  · simp [apply_to_function, check_access_level_conflict, friendPreassigned]
  · simp [apply_to_function, check_access_level_conflict]

/-- C9, witness at concrete levels: duplicate explicit Protected errors;
a friend flag with a non-Public level errors; the friend-preassigned
Public accepts one explicit Protected; a further explicit declaration on
the result errors. -/
theorem c9_conflict_check_rules_witness :
    apply_to_function ⟨some AccessLevel.PROTECTED, false, true⟩
      AccessLevel.PROTECTED = none
    ∧ apply_to_function ⟨some AccessLevel.PROTECTED, true, true⟩
      AccessLevel.PROTECTED = none
    ∧ apply_to_function friendPreassigned AccessLevel.PROTECTED =
      some ⟨some AccessLevel.PROTECTED, false, true⟩
    ∧ apply_to_function ⟨some AccessLevel.PROTECTED, false, true⟩
      AccessLevel.PRIVATE = none := by
  have h := c9_conflict_check_rules AccessLevel.PROTECTED AccessLevel.PROTECTED
    AccessLevel.PRIVATE true
  exact ⟨h.1, h.2.1 (by decide), h.2.2.1, h.2.2.2⟩

/-! ### C10 -/

/-- C10, counterexample: for a Private member of T with caller type T, a
non-constructor caller method and an instance of the proper subclass D,
the bouncer generation allows (same-class shortcut runs first) while the
limen generation denies (strict same-exact-instance-type rule): the two
generations do not compute the same verdicts. -/
theorem c10_counterexample :
    Bouncer.can_access ⟨[(1, 0)]⟩ fsEmpty iaEmpty ⟨0, "T"⟩ "m"
      AccessLevel.PRIVATE ⟨some ⟨0, "T"⟩, some "go"⟩ (some ⟨1, "D"⟩) = true
    ∧ Limen.can_access ⟨[(1, 0)]⟩ fsEmpty iaEmpty ⟨0, "T"⟩ "m"
      AccessLevel.PRIVATE ⟨some ⟨0, "T"⟩, some "go"⟩ (some ⟨1, "D"⟩) = false :=
  ⟨rfl, rfl⟩

/-- The Limen checker allows every access to a member declared Public
whose effective visibility is Public. -/
theorem limen_public_allows (env : PyEnv) (fs : FriendState)
    (ia : InheritanceAnalyzer) (T : PyClass) (m : String) (ci : CallerInfo)
    (inst : Option PyClass)
    (heff : ia.get_inherited_access_level (inst.getD T) m AccessLevel.PUBLIC
      ci.caller_class = AccessLevel.PUBLIC) :
    Limen.can_access env fs ia T m AccessLevel.PUBLIC ci inst = true := by
  unfold Limen.can_access
  simp only [check_friend_access_public, Bool.false_eq_true, if_false]
  have hnp : ¬ (AccessLevel.PUBLIC = AccessLevel.PRIVATE) := by decide
  rw [if_neg hnp]
  by_cases hct : ci.caller_class = some T
  · simp [hct]
  · rw [if_neg hct]
    cases hcc : ci.caller_class with
    | none =>
      rw [hcc] at heff
      simp [Limen.fallback_step, Limen.check_access_by_level, heff, hcc]
    | some cc =>
      rw [hcc] at heff
      by_cases hsub : env.issubclass cc T = true
      · simp only [hsub, if_true]
        cases hk : ia.get_inheritance_type cc T with
        | none => simp [Limen.fallback_step, Limen.check_access_by_level, heff, hcc]
        | some k => cases k <;> simp
      · simp [hsub, Limen.fallback_step, Limen.check_access_by_level, heff, hcc]

/-- The Bouncer checker allows every access to a member declared Public
whose effective visibility is Public. -/
theorem bouncer_public_allows (env : PyEnv) (fs : FriendState)
    (ia : InheritanceAnalyzer) (T : PyClass) (m : String) (ci : CallerInfo)
    (inst : Option PyClass)
    (heff : ia.get_inherited_access_level (inst.getD T) m AccessLevel.PUBLIC
      ci.caller_class = AccessLevel.PUBLIC) :
    Bouncer.can_access env fs ia T m AccessLevel.PUBLIC ci inst = true := by
  unfold Bouncer.can_access
  by_cases hct : ci.caller_class = some T
  · simp [hct]
  · rw [if_neg hct]
    cases hcc : ci.caller_class with
    | none =>
      rw [hcc] at heff
      simp [Bouncer.fallback_step, Bouncer.check_access_by_level, heff, hcc]
    | some cc =>
      rw [hcc] at heff
      by_cases hsub : env.issubclass cc T = true
      · simp only [hsub, if_true]
        cases hk : ia.get_inheritance_type cc T with
        | none => simp [Bouncer.fallback_step, Bouncer.check_access_by_level, heff, hcc]
        | some k => cases k <;> simp
      · simp [hsub, Bouncer.fallback_step, Bouncer.check_access_by_level, heff, hcc]

/-- C10, amended: the two generations of `can_access` agree (both allow)
on every input whose declared level is Public and whose computed effective
visibility is Public; on other inputs they can differ, as the
counterexample shows. -/
theorem c10_generations_agree_on_public :
    ∀ (env : PyEnv) (fs : FriendState) (ia : InheritanceAnalyzer)
      (T : PyClass) (m : String) (ci : CallerInfo) (inst : Option PyClass),
      ia.get_inherited_access_level (inst.getD T) m AccessLevel.PUBLIC
        ci.caller_class = AccessLevel.PUBLIC →
      Bouncer.can_access env fs ia T m AccessLevel.PUBLIC ci inst =
        Limen.can_access env fs ia T m AccessLevel.PUBLIC ci inst := by
  intro env fs ia T m ci inst heff
  rw [limen_public_allows env fs ia T m ci inst heff,
    bouncer_public_allows env fs ia T m ci inst heff]

/-- C10, witness for the amended theorem at a concrete input. -/
theorem c10_generations_agree_on_public_witness :
    Bouncer.can_access ⟨[]⟩ fsEmpty iaEmpty ⟨0, "T"⟩ "m" AccessLevel.PUBLIC
      ⟨some ⟨1, "U"⟩, some "f"⟩ none =
    Limen.can_access ⟨[]⟩ fsEmpty iaEmpty ⟨0, "T"⟩ "m" AccessLevel.PUBLIC
      ⟨some ⟨1, "U"⟩, some "f"⟩ none :=
  c10_generations_agree_on_public ⟨[]⟩ fsEmpty iaEmpty ⟨0, "T"⟩ "m"
    ⟨some ⟨1, "U"⟩, some "f"⟩ none rfl

end Bnc
